import Mathlib

/-!
Verification of the ComfyUI-MagnifyGlass extension (`src/web/magnify_glass.js`).

The JavaScript numeric values (cursor coordinates, pan/zoom transform,
offsets, rectangle fields) are modelled as rationals `ℚ`; the guard
`canvasScale === 0` in the source is modelled by the corresponding test on
`ℚ`, so no division by zero is ever performed on the guarded path.
Stateful methods are modelled as functions from the state record to the
state record.
-/

namespace Magnify

/-- An axis-aligned rectangle `{x, y, width, height}` as used throughout
`magnify_glass.js` (sample rectangle, widget bounding boxes). -/
structure Rect where
  x : ℚ
  y : ℚ
  width : ℚ
  height : ℚ
  deriving DecidableEq

/-- The configuration fields of `ConfigManager` that the verified behaviour
depends on (`zoomFactor`, `glassSize`, `offsetStep`, the manual offsets and
the key bindings).  Appearance-only fields (border, shape, colors, …) are
not modelled. -/
structure MagConfig where
  zoomFactor : ℚ
  glassSize : ℚ
  offsetStep : ℚ
  offsetX : ℚ
  offsetY : ℚ
  activationKey : String
  altRequired : Bool
  resetKey : String
  resetAltRequired : Bool
  deriving DecidableEq

/-- State class `MagnifierState` from the source: activation flag, cursor position in
canvas pixels, the computed source (sample) rectangle, the copied host
transform, and the single-flight render-scheduling flag. -/
structure MagState where
  active : Bool
  x : ℚ
  y : ℚ
  sourceX : ℚ
  sourceY : ℚ
  sourceWidth : ℚ
  sourceHeight : ℚ
  canvasScale : ℚ
  canvasOffsetX : ℚ
  canvasOffsetY : ℚ
  isRenderScheduled : Bool
  deriving DecidableEq

/-- Method `MagnifyGlass.calculateSourceRegion` (magnify_glass.js lines 160-208),
translated statement by statement.  It reads the cursor position and host
transform from the state, converts to graph coordinates, applies the manual
offset, computes the sample extent, and writes the resulting rectangle back
into the state.  When `canvasScale = 0` it returns the state unchanged
(the early-return guard in the source). -/
def calculateSourceRegion (config : MagConfig) (state : MagState) : MagState :=
  let cursorPixelX := state.x
  let cursorPixelY := state.y
  let canvasScale := state.canvasScale
  let canvasOffsetX := state.canvasOffsetX
  let canvasOffsetY := state.canvasOffsetY
  if canvasScale = 0 then state
  else
    let cursorGraphX := (cursorPixelX - canvasOffsetX) / canvasScale
    let cursorGraphY := (cursorPixelY - canvasOffsetY) / canvasScale
    let targetGraphCenterX := cursorGraphX + config.offsetX
    let targetGraphCenterY := cursorGraphY + config.offsetY
    let sourceGraphWidth := (config.glassSize / config.zoomFactor) / canvasScale
    let sourceGraphHeight := (config.glassSize / config.zoomFactor) / canvasScale
    let sourceGraphX := targetGraphCenterX - (sourceGraphWidth / 2)
    let sourceGraphY := targetGraphCenterY - (sourceGraphHeight / 2)
    { state with
      sourceX := (sourceGraphX * canvasScale) + canvasOffsetX
      sourceY := (sourceGraphY * canvasScale) + canvasOffsetY
      sourceWidth := sourceGraphWidth * canvasScale
      sourceHeight := sourceGraphHeight * canvasScale }

/-- Method `MagnifyGlass.rectsOverlap` (magnify_glass.js lines 211-216): strict
axis-aligned overlap test. -/
def rectsOverlap (rect1 rect2 : Rect) : Bool :=
  decide (rect1.x < rect2.x + rect2.width) &&
  decide (rect1.x + rect1.width > rect2.x) &&
  decide (rect1.y < rect2.y + rect2.height) &&
  decide (rect1.y + rect1.height > rect2.y)

/-- A fixed example configuration (the default settings of the source:
zoom 3, glass size 300, step 5, keys `x`/`r` with Alt required). -/
def defaultConfig : MagConfig :=
  { zoomFactor := 3, glassSize := 300, offsetStep := 5, offsetX := 0, offsetY := 0,
    activationKey := "x", altRequired := true, resetKey := "r", resetAltRequired := true }

/-- The state of Scenario 1/2: cursor (100,100), host transform identity. -/
def scenarioState : MagState :=
  { active := true, x := 100, y := 100, sourceX := 0, sourceY := 0,
    sourceWidth := 0, sourceHeight := 0, canvasScale := 1,
    canvasOffsetX := 0, canvasOffsetY := 0, isRenderScheduled := false }

/-- An example state with a non-trivial host transform, used to witness the
generic geometry theorems. -/
def exState : MagState :=
  { active := true, x := 37, y := -11, sourceX := 0, sourceY := 0,
    sourceWidth := 0, sourceHeight := 0, canvasScale := 2,
    canvasOffsetX := 5, canvasOffsetY := -3, isRenderScheduled := false }

/-- An example configuration with non-zero manual offsets. -/
def exConfig : MagConfig :=
  { defaultConfig with offsetX := 7, offsetY := -4 }

/-- C1: for `hostScale > 0`, the sample rectangle computed by
`calculateSourceRegion` has its center, mapped back through the host
transform (`(pixel - hostOffset) / hostScale`), equal to the cursor world
position plus the manual offset, and its pixel-space extent equals
`glassSize / zoomFactor` on both axes. -/
theorem calculateSourceRegion_center_roundtrip (config : MagConfig) (state : MagState)
    (h : 0 < state.canvasScale) :
    (((calculateSourceRegion config state).sourceX
        + (calculateSourceRegion config state).sourceWidth / 2)
      - state.canvasOffsetX) / state.canvasScale
      = (state.x - state.canvasOffsetX) / state.canvasScale + config.offsetX
    ∧ (((calculateSourceRegion config state).sourceY
        + (calculateSourceRegion config state).sourceHeight / 2)
      - state.canvasOffsetY) / state.canvasScale
      = (state.y - state.canvasOffsetY) / state.canvasScale + config.offsetY
    ∧ (calculateSourceRegion config state).sourceWidth
        = config.glassSize / config.zoomFactor
    ∧ (calculateSourceRegion config state).sourceHeight
        = config.glassSize / config.zoomFactor := by
  have hne : state.canvasScale ≠ 0 := ne_of_gt h
  simp only [calculateSourceRegion, if_neg hne]
  refine ⟨?_, ?_, div_mul_cancel₀ _ hne, div_mul_cancel₀ _ hne⟩ <;> field_simp <;> ring

/-- Witness for C1 at a concrete input (`exConfig`, `exState`). -/
theorem calculateSourceRegion_center_roundtrip_witness :
    (0 : ℚ) < exState.canvasScale
    ∧ ((((calculateSourceRegion exConfig exState).sourceX
          + (calculateSourceRegion exConfig exState).sourceWidth / 2)
        - exState.canvasOffsetX) / exState.canvasScale
        = (exState.x - exState.canvasOffsetX) / exState.canvasScale + exConfig.offsetX
      ∧ (((calculateSourceRegion exConfig exState).sourceY
          + (calculateSourceRegion exConfig exState).sourceHeight / 2)
        - exState.canvasOffsetY) / exState.canvasScale
        = (exState.y - exState.canvasOffsetY) / exState.canvasScale + exConfig.offsetY
      ∧ (calculateSourceRegion exConfig exState).sourceWidth
          = exConfig.glassSize / exConfig.zoomFactor
      ∧ (calculateSourceRegion exConfig exState).sourceHeight
          = exConfig.glassSize / exConfig.zoomFactor) :=
  ⟨by norm_num [exState],
    calculateSourceRegion_center_roundtrip exConfig exState (by norm_num [exState])⟩

/-- C2: with the identity host transform, cursor (100,100), no manual
offset and glass size 300, `calculateSourceRegion` yields the sample
rectangle `{x:50, y:50, width:100, height:100}` at zoom 3, and a sample
rectangle of extent 300×300 at zoom 1. -/
theorem calculateSourceRegion_scenarios :
    ((calculateSourceRegion defaultConfig scenarioState).sourceX = 50
      ∧ (calculateSourceRegion defaultConfig scenarioState).sourceY = 50
      ∧ (calculateSourceRegion defaultConfig scenarioState).sourceWidth = 100
      ∧ (calculateSourceRegion defaultConfig scenarioState).sourceHeight = 100)
    ∧ ((calculateSourceRegion { defaultConfig with zoomFactor := 1 }
          scenarioState).sourceWidth = 300
      ∧ (calculateSourceRegion { defaultConfig with zoomFactor := 1 }
          scenarioState).sourceHeight = 300) := by
  norm_num [calculateSourceRegion, defaultConfig, scenarioState]

/-- C3: when the host scale is 0, `calculateSourceRegion` takes the guard
branch: it performs no division and returns the state unchanged (in
particular `sourceX`, `sourceY`, `sourceWidth`, `sourceHeight` keep their
previous values). -/
theorem calculateSourceRegion_zero_scale (config : MagConfig) (state : MagState)
    (h : state.canvasScale = 0) :
    calculateSourceRegion config state = state := by
  simp [calculateSourceRegion, h]

/-- Witness for C3 at a concrete input: `exState` with scale zeroed out. -/
theorem calculateSourceRegion_zero_scale_witness :
    { exState with canvasScale := 0 }.canvasScale = 0
    ∧ calculateSourceRegion exConfig { exState with canvasScale := 0 }
        = { exState with canvasScale := 0 } :=
  ⟨rfl,
    calculateSourceRegion_zero_scale exConfig { exState with canvasScale := 0 } rfl⟩

/-- C4: the overlap test is symmetric, and rectangles that merely touch along
an edge (equality on any one of the four sides) do not overlap. -/
theorem rectsOverlap_symm_touch (A B : Rect) :
    rectsOverlap A B = rectsOverlap B A
    ∧ (A.x + A.width = B.x → rectsOverlap A B = false)
    ∧ (B.x + B.width = A.x → rectsOverlap A B = false)
    ∧ (A.y + A.height = B.y → rectsOverlap A B = false)
    ∧ (B.y + B.height = A.y → rectsOverlap A B = false) := by
  refine ⟨?_, ?_, ?_, ?_, ?_⟩
  · by_cases h1 : A.x < B.x + B.width <;>
      by_cases h2 : B.x < A.x + A.width <;>
      by_cases h3 : A.y < B.y + B.height <;>
      by_cases h4 : B.y < A.y + A.height <;>
      simp [rectsOverlap, h1, h2, h3, h4]
  · intro h; simp [rectsOverlap, ← h]
  · intro h; simp [rectsOverlap, ← h]
  · intro h; simp [rectsOverlap, ← h]
  · intro h; simp [rectsOverlap, ← h]

/-- Rectangle `[0,1]×[0,1]`, touching `exRectB` on its right edge. -/
def exRectA : Rect := { x := 0, y := 0, width := 1, height := 1 }

/-- Rectangle `[1,2]×[0,1]`. -/
def exRectB : Rect := { x := 1, y := 0, width := 1, height := 1 }

/-- Rectangle `[0,1]×[1,2]`, touching `exRectA` on its bottom edge. -/
def exRectC : Rect := { x := 0, y := 1, width := 1, height := 1 }

/-- Witness for C4 at concrete rectangles covering all four touching sides. -/
theorem rectsOverlap_symm_touch_witness :
    rectsOverlap exRectA exRectB = rectsOverlap exRectB exRectA
    ∧ rectsOverlap exRectA exRectB = false
    ∧ rectsOverlap exRectB exRectA = false
    ∧ rectsOverlap exRectA exRectC = false
    ∧ rectsOverlap exRectC exRectA = false :=
  ⟨(rectsOverlap_symm_touch exRectA exRectB).1,
    (rectsOverlap_symm_touch exRectA exRectB).2.1 (by norm_num [exRectA, exRectB]),
    (rectsOverlap_symm_touch exRectB exRectA).2.2.1 (by norm_num [exRectA, exRectB]),
    (rectsOverlap_symm_touch exRectA exRectC).2.2.2.1 (by norm_num [exRectA, exRectC]),
    (rectsOverlap_symm_touch exRectC exRectA).2.2.2.2 (by norm_num [exRectA, exRectC])⟩

/-! ### Persistence: `ConfigManager.loadSavedOffsets` (lines 464-487)

The stored strings are parsed with the JavaScript function `parseInt(s, 10)`.  A
JavaScript number that is NaN is modelled by `none : Option ℤ`; a normal
integer result by `some n`. -/

/-- The whitespace characters ignored by `parseInt` before the number. -/
def isJsSpace (c : Char) : Bool :=
  c = ' ' || c = '\t' || c = '\n' || c = '\r' || c = '\x0b' || c = '\x0c'

/-- The longest prefix of decimal digits. -/
def takeDigits : List Char → List Char
  | [] => []
  | c :: cs => if c.isDigit then c :: takeDigits cs else []

/-- Numeric value of a digit list (most significant first). -/
def digitsVal (ds : List Char) : Nat :=
  ds.foldl (fun acc c => acc * 10 + (c.toNat - 48)) 0

/-- JavaScript `parseInt(s, 10)`: skip leading whitespace, read an optional
sign, then the longest prefix of decimal digits (any trailing characters are
ignored).  Returns `none` (NaN) when no digit is found. -/
def jsParseInt (s : String) : Option Int :=
  let cs := s.data.dropWhile isJsSpace
  let signed : Int × List Char :=
    match cs with
    | '-' :: rest => (-1, rest)
    | '+' :: rest => (1, rest)
    | _ => (1, cs)
  let ds := takeDigits signed.2
  if ds.isEmpty then none else some (signed.1 * (digitsVal ds : Int))

/-- One read of the key-value persistence store (`localStorage`): either the
lookup function itself (`ok`), or the read throws (`err`). -/
inductive StoreRead where
  | ok (get : String → Option String)
  | err

/-- Method `ConfigManager.loadSavedOffsets` (lines 464-487): reads the two
well-known keys; a present value is parsed with `parseInt(·, 10)`, a missing
key yields 0, and a throwing read is caught and resets both offsets to 0.
The pair is `(offsetX, offsetY)`; `none` models NaN. -/
def loadSavedOffsets : StoreRead → Option Int × Option Int
  | .err => (some 0, some 0)
  | .ok get =>
    let offsetX := match get "comfyui_magnify_offset_x" with
      | some s => jsParseInt s
      | none => some 0
    let offsetY := match get "comfyui_magnify_offset_y" with
      | some s => jsParseInt s
      | none => some 0
    (offsetX, offsetY)

/-- A store whose x-offset key holds the malformed value `"abc"` and whose
other keys are missing. -/
def malformedStore : StoreRead :=
  .ok fun k => if k = "comfyui_magnify_offset_x" then some "abc" else none

/-- Counterexample to C5: on a store holding the malformed value `"abc"`
under the x-offset key, `loadSavedOffsets` yields NaN (modelled `none`) for
that offset, not 0 — the source applies `parseInt` with no NaN check. -/
theorem loadSavedOffsets_malformed_not_zero :
    (loadSavedOffsets malformedStore).1 ≠ some 0 := by
  decide

/-- C5 (amended): a missing key yields offset 0, a throwing read yields
`(0, 0)`, and a well-formed stored integer parses to its value; but a
malformed stored value (one `parseInt` cannot extract a leading integer
from) yields NaN, not 0. -/
theorem loadSavedOffsets_spec (get : String → Option String) (s t : String)
    (hx : get "comfyui_magnify_offset_x" = some s)
    (hy : get "comfyui_magnify_offset_y" = some t) :
    loadSavedOffsets .err = (some 0, some 0)
    ∧ (∀ g : String → Option String, g "comfyui_magnify_offset_x" = none →
        (loadSavedOffsets (.ok g)).1 = some 0)
    ∧ (∀ g : String → Option String, g "comfyui_magnify_offset_y" = none →
        (loadSavedOffsets (.ok g)).2 = some 0)
    ∧ (loadSavedOffsets (.ok get)).1 = jsParseInt s
    ∧ (loadSavedOffsets (.ok get)).2 = jsParseInt t := by
  refine ⟨rfl, ?_, ?_, ?_, ?_⟩
  · intro g hg; simp [loadSavedOffsets, hg]
  · intro g hg; simp [loadSavedOffsets, hg]
  · simp [loadSavedOffsets, hx]
  · simp [loadSavedOffsets, hy]

/-- A store holding `"abc"` under the x-offset key and `"7"` elsewhere. -/
def bothStoreGet : String → Option String :=
  fun k => if k = "comfyui_magnify_offset_x" then some "abc" else some "7"

/-- Witness for the amended C5: a throwing read yields `(0,0)`, the present
values of `bothStoreGet` parse with `parseInt` (so `"abc"` gives NaN and
`"7"` gives 7), and the missing y key of `malformedStore` yields 0. -/
theorem loadSavedOffsets_spec_witness :
    loadSavedOffsets .err = (some 0, some 0)
    ∧ (loadSavedOffsets (.ok bothStoreGet)).1 = jsParseInt "abc"
    ∧ (loadSavedOffsets (.ok bothStoreGet)).2 = jsParseInt "7"
    ∧ (loadSavedOffsets malformedStore).2 = some 0 := by
  obtain ⟨h1, -, h3, h4, h5⟩ :=
    loadSavedOffsets_spec bothStoreGet "abc" "7" (by decide) (by decide)
  exact ⟨h1, h4, h5,
    h3 (fun k => if k = "comfyui_magnify_offset_x" then some "abc" else none) (by decide)⟩

/-! ### Event handling and render scheduling

`EventHandler.handleKeyDown` / `handleKeyUp` / `handleMouseMove`,
`MagnifyGlass.updateMagnifiedView` / `resetOffsets` / `renderHtmlOverlays`,
and `UiManager.show` / `hide`, as one step function over a global state.

DOM data read fresh from the host on each event (the canvas client
rectangle, the canvas backing-store size, `app.canvas.ds`, and the widget
bounding boxes already converted to canvas pixel space by lines 272-288) is
packaged in an `Env` carried by the event.  `requestAnimationFrame` queues
a callback exactly when `isRenderScheduled` flips to true and the callback
is the only place that resets it, so a frame tick runs the callback body
precisely when `isRenderScheduled` is set. -/

/-- A keyboard event: `key`, `altKey`, `shiftKey`. -/
structure KeyEvent where
  key : String
  altKey : Bool
  shiftKey : Bool
  deriving DecidableEq

/-- Host data read fresh at each event. -/
structure Env where
  rectLeft : ℚ
  rectTop : ℚ
  rectWidth : ℚ
  rectHeight : ℚ
  canvasPixelWidth : ℚ
  canvasPixelHeight : ℚ
  dsScale : ℚ
  dsOffsetX : ℚ
  dsOffsetY : ℚ
  hasGraph : Bool
  widgets : List Rect
  deriving DecidableEq

/-- The global state: configuration, magnifier state, overlay visibility
(`glassDiv.style.display`), the compositor clone list
(`htmlOverlayContainer` children), the persisted offset keys, the last
known mouse position, a count of `renderer.render` invocations, and the
presence of renderer and canvas established at `init`. -/
structure GlobalState where
  config : MagConfig
  st : MagState
  visible : Bool
  clones : List Rect
  persistedX : Option ℚ
  persistedY : Option ℚ
  lastMouseX : ℚ
  lastMouseY : ℚ
  renderCount : Nat
  hasRenderer : Bool
  hasCanvas : Bool
  deriving DecidableEq

/-- JavaScript `String.prototype.toLowerCase` (ASCII range suffices for the
key names involved). -/
def jsToLower (s : String) : String := ⟨s.data.map Char.toLower⟩

/-- Method `MagnifyGlass.updateCanvasTransformation` (lines 140-158): copy the
pan/zoom transform of the host into the state. -/
def updateCanvasTransformation (env : Env) (g : GlobalState) : GlobalState :=
  { g with st := { g.st with
      canvasScale := env.dsScale,
      canvasOffsetX := env.dsOffsetX,
      canvasOffsetY := env.dsOffsetY } }

/-- Method `ConfigManager.saveOffsets` (lines 489-497): write both offsets to the
persistence store. -/
def saveOffsets (g : GlobalState) : GlobalState :=
  { g with persistedX := some g.config.offsetX, persistedY := some g.config.offsetY }

/-- Method `MagnifyGlass.updateMagnifiedView` (lines 106-138): guard on active
state, renderer and canvas; refresh the transform; recompute the source
region; schedule a render unless one is already pending. -/
def updateMagnifiedView (env : Env) (g : GlobalState) : GlobalState :=
  if g.st.active && g.hasRenderer && g.hasCanvas then
    let g1 := updateCanvasTransformation env g
    let g2 := { g1 with st := calculateSourceRegion g1.config g1.st }
    if g2.st.isRenderScheduled then g2
    else { g2 with st := { g2.st with isRenderScheduled := true } }
  else g

/-- The body of the `requestAnimationFrame` callback plus
`renderHtmlOverlays` (lines 121-136 and 218-343), run at a frame tick.  The
callback exists precisely when `isRenderScheduled` is set.  It re-checks
active/renderer/canvas, invokes `renderer.render`, rebuilds the clone list
from the widgets overlapping the sample rectangle (empty when `app.graph`
is unavailable), and clears the scheduling flag. -/
def frameTick (env : Env) (g : GlobalState) : GlobalState :=
  if g.st.isRenderScheduled then
    if g.st.active && g.hasRenderer && g.hasCanvas then
      let magnifyRect : Rect :=
        { x := g.st.sourceX, y := g.st.sourceY,
          width := g.st.sourceWidth, height := g.st.sourceHeight }
      let clones :=
        if env.hasGraph then env.widgets.filter (fun w => rectsOverlap magnifyRect w)
        else []
      { g with renderCount := g.renderCount + 1, clones := clones,
               st := { g.st with isRenderScheduled := false } }
    else { g with st := { g.st with isRenderScheduled := false } }
  else g

/-- Method `EventHandler.updateInitialPosition` (lines 1057-1087): on activation,
snap the cursor state to the last known mouse position if it lies over the
canvas, then request a render.  (`positionGlass` only moves the floating
div and is not modelled.) -/
def updateInitialPosition (env : Env) (g : GlobalState) : GlobalState :=
  if g.hasCanvas then
    let clientX := g.lastMouseX
    let clientY := g.lastMouseY
    if env.rectLeft ≤ clientX ∧ clientX ≤ env.rectLeft + env.rectWidth ∧
        env.rectTop ≤ clientY ∧ clientY ≤ env.rectTop + env.rectHeight then
      let cssX := clientX - env.rectLeft
      let cssY := clientY - env.rectTop
      let scaleX := if 0 < env.rectWidth then env.canvasPixelWidth / env.rectWidth else 1
      let scaleY := if 0 < env.rectHeight then env.canvasPixelHeight / env.rectHeight else 1
      updateMagnifiedView env
        { g with st := { g.st with x := cssX * scaleX, y := cssY * scaleY } }
    else g
  else g

/-- Composition `saveOffsets` followed by `updateMagnifiedView` — the tail of the
`offsetChanged` branch of `handleKeyDown` (lines 979-983). -/
def saveAndUpdate (env : Env) (g : GlobalState) : GlobalState :=
  updateMagnifiedView env (saveOffsets g)

/-- First half of `EventHandler.handleKeyDown` (lines 933-943): magnifier
activation — on the activation key with its modifier, while inactive, set
active, show the overlay (`UiManager.show`) and snap to the last known
mouse position. -/
def handleKeyDownActivate (e : KeyEvent) (env : Env) (g : GlobalState) : GlobalState :=
  if jsToLower e.key == g.config.activationKey && (!g.config.altRequired || e.altKey) then
    if !g.st.active then
      updateInitialPosition env
        { g with st := { g.st with active := true }, visible := true }
    else g
  else g

/-- Second half of `EventHandler.handleKeyDown` (lines 945-984): while
active, arrow-key offset nudges (step ×5 with shift) and the reset key,
each saving offsets and requesting a render. -/
def handleKeyDownAdjust (e : KeyEvent) (env : Env) (g : GlobalState) : GlobalState :=
  if g.st.active then
    let stepSize := if e.shiftKey then g.config.offsetStep * 5 else g.config.offsetStep
    if e.key == "ArrowUp" then
      saveAndUpdate env
        { g with config := { g.config with offsetY := g.config.offsetY - stepSize } }
    else if e.key == "ArrowDown" then
      saveAndUpdate env
        { g with config := { g.config with offsetY := g.config.offsetY + stepSize } }
    else if e.key == "ArrowLeft" then
      saveAndUpdate env
        { g with config := { g.config with offsetX := g.config.offsetX - stepSize } }
    else if e.key == "ArrowRight" then
      saveAndUpdate env
        { g with config := { g.config with offsetX := g.config.offsetX + stepSize } }
    else if jsToLower e.key == jsToLower g.config.resetKey &&
        (!g.config.resetAltRequired || e.altKey) then
      saveAndUpdate env
        { g with config := { g.config with offsetX := 0, offsetY := 0 } }
    else g
  else g

/-- Method `EventHandler.handleKeyDown` (lines 929-985): activation followed by
offset adjustment, both reading the state the previous half left. -/
def handleKeyDown (e : KeyEvent) (env : Env) (g : GlobalState) : GlobalState :=
  handleKeyDownAdjust e env (handleKeyDownActivate e env g)

/-- Method `EventHandler.handleKeyUp` (lines 987-1023): releasing the activation
key — or Alt when required — deactivates; `UiManager.hide` (lines 604-613)
hides the overlay container and clears the compositor clones. -/
def handleKeyUp (e : KeyEvent) (g : GlobalState) : GlobalState :=
  if jsToLower e.key == g.config.activationKey ||
      (g.config.altRequired && e.key == "Alt") then
    let shouldDeactivate :=
      if g.config.altRequired then
        e.key == "Alt" || jsToLower e.key == g.config.activationKey
      else
        jsToLower e.key == g.config.activationKey
    if g.st.active && shouldDeactivate then
      { g with st := { g.st with active := false }, visible := false, clones := [] }
    else g
  else g

/-- Method `EventHandler.handleMouseMove` (lines 1025-1055): always record the
last known mouse position; while active and over the canvas, convert to
canvas pixel coordinates, update the cursor state and request a render. -/
def handleMouseMove (clientX clientY : ℚ) (env : Env) (g : GlobalState) : GlobalState :=
  let g := { g with lastMouseX := clientX, lastMouseY := clientY }
  if g.st.active && g.hasCanvas then
    let cssX := clientX - env.rectLeft
    let cssY := clientY - env.rectTop
    if 0 ≤ cssX ∧ cssX ≤ env.rectWidth ∧ 0 ≤ cssY ∧ cssY ≤ env.rectHeight then
      let scaleX := if 0 < env.rectWidth then env.canvasPixelWidth / env.rectWidth else 1
      let scaleY := if 0 < env.rectHeight then env.canvasPixelHeight / env.rectHeight else 1
      updateMagnifiedView env
        { g with st := { g.st with x := cssX * scaleX, y := cssY * scaleY } }
    else g
  else g

/-- Method `MagnifyGlass.resetOffsets` (lines 409-417): zero both offsets, persist
them, and — when active — request a render. -/
def resetOffsets (env : Env) (g : GlobalState) : GlobalState :=
  let g1 := saveOffsets { g with config := { g.config with offsetX := 0, offsetY := 0 } }
  if g1.st.active then updateMagnifiedView env g1 else g1

/-- The events the attached listeners react to, plus the host frame tick. -/
inductive Event where
  | keyDown (e : KeyEvent) (env : Env)
  | keyUp (e : KeyEvent)
  | mouseMove (clientX clientY : ℚ) (env : Env)
  | frame (env : Env)
  deriving DecidableEq

/-- One step of the event-handling relation. -/
def applyEvent : Event → GlobalState → GlobalState
  | .keyDown e env, g => handleKeyDown e env g
  | .keyUp e, g => handleKeyUp e g
  | .mouseMove cx cy env, g => handleMouseMove cx cy env g
  | .frame env, g => frameTick env g

/-- Apply a sequence of events in order. -/
def applyEvents (evs : List Event) (g : GlobalState) : GlobalState :=
  evs.foldl (fun g ev => applyEvent ev g) g

/-- Whether an event is the host frame tick. -/
def Event.isFrame : Event → Bool
  | .frame _ => true
  | _ => false

/-- The state right after `init` (lines 60-97): inactive, hidden overlay,
no clones, no pending render, renderer and canvas present.  `config` covers
whatever the settings and `loadSavedOffsets` produced, and `px`/`py` the
prior content of the persistence store. -/
def initialState (config : MagConfig) (px py : Option ℚ) : GlobalState :=
  { config := config
    st := { active := false, x := 0, y := 0, sourceX := 0, sourceY := 0,
            sourceWidth := 0, sourceHeight := 0, canvasScale := 1,
            canvasOffsetX := 0, canvasOffsetY := 0, isRenderScheduled := false }
    visible := false, clones := [], persistedX := px, persistedY := py,
    lastMouseX := 0, lastMouseY := 0, renderCount := 0,
    hasRenderer := true, hasCanvas := true }

/-- States reachable from the initial state by the event-handling step
relation. -/
inductive Reachable (config : MagConfig) (px py : Option ℚ) : GlobalState → Prop
  | init : Reachable config px py (initialState config px py)
  | step {g : GlobalState} (h : Reachable config px py g) (ev : Event) :
      Reachable config px py (applyEvent ev g)

/-! ### Frame lemmas: which state components each operation leaves alone -/

@[simp] lemma calculateSourceRegion_active (c : MagConfig) (s : MagState) :
    (calculateSourceRegion c s).active = s.active := by
  simp only [calculateSourceRegion]; split <;> rfl

@[simp] lemma calculateSourceRegion_sched (c : MagConfig) (s : MagState) :
    (calculateSourceRegion c s).isRenderScheduled = s.isRenderScheduled := by
  simp only [calculateSourceRegion]; split <;> rfl

@[simp] lemma updateCanvasTransformation_config (env : Env) (g : GlobalState) :
    (updateCanvasTransformation env g).config = g.config := rfl

@[simp] lemma updateCanvasTransformation_active (env : Env) (g : GlobalState) :
    (updateCanvasTransformation env g).st.active = g.st.active := rfl

@[simp] lemma updateCanvasTransformation_sched (env : Env) (g : GlobalState) :
    (updateCanvasTransformation env g).st.isRenderScheduled = g.st.isRenderScheduled := rfl

@[simp] lemma saveOffsets_config (g : GlobalState) : (saveOffsets g).config = g.config := rfl

@[simp] lemma saveOffsets_st (g : GlobalState) : (saveOffsets g).st = g.st := rfl

@[simp] lemma saveOffsets_visible (g : GlobalState) : (saveOffsets g).visible = g.visible := rfl

@[simp] lemma saveOffsets_clones (g : GlobalState) : (saveOffsets g).clones = g.clones := rfl

@[simp] lemma saveOffsets_renderCount (g : GlobalState) :
    (saveOffsets g).renderCount = g.renderCount := rfl

@[simp] lemma saveOffsets_persistedX (g : GlobalState) :
    (saveOffsets g).persistedX = some g.config.offsetX := rfl

@[simp] lemma saveOffsets_persistedY (g : GlobalState) :
    (saveOffsets g).persistedY = some g.config.offsetY := rfl

@[simp] lemma updateMagnifiedView_config (env : Env) (g : GlobalState) :
    (updateMagnifiedView env g).config = g.config := by
  simp only [updateMagnifiedView]; split <;> (try split) <;> rfl

@[simp] lemma updateMagnifiedView_visible (env : Env) (g : GlobalState) :
    (updateMagnifiedView env g).visible = g.visible := by
  simp only [updateMagnifiedView]; split <;> (try split) <;> rfl

@[simp] lemma updateMagnifiedView_clones (env : Env) (g : GlobalState) :
    (updateMagnifiedView env g).clones = g.clones := by
  simp only [updateMagnifiedView]; split <;> (try split) <;> rfl

@[simp] lemma updateMagnifiedView_persistedX (env : Env) (g : GlobalState) :
    (updateMagnifiedView env g).persistedX = g.persistedX := by
  simp only [updateMagnifiedView]; split <;> (try split) <;> rfl

@[simp] lemma updateMagnifiedView_persistedY (env : Env) (g : GlobalState) :
    (updateMagnifiedView env g).persistedY = g.persistedY := by
  simp only [updateMagnifiedView]; split <;> (try split) <;> rfl

@[simp] lemma updateMagnifiedView_renderCount (env : Env) (g : GlobalState) :
    (updateMagnifiedView env g).renderCount = g.renderCount := by
  simp only [updateMagnifiedView]; split <;> (try split) <;> rfl

@[simp] lemma updateMagnifiedView_lastMouseX (env : Env) (g : GlobalState) :
    (updateMagnifiedView env g).lastMouseX = g.lastMouseX := by
  simp only [updateMagnifiedView]; split <;> (try split) <;> rfl

@[simp] lemma updateMagnifiedView_lastMouseY (env : Env) (g : GlobalState) :
    (updateMagnifiedView env g).lastMouseY = g.lastMouseY := by
  simp only [updateMagnifiedView]; split <;> (try split) <;> rfl

@[simp] lemma updateMagnifiedView_active (env : Env) (g : GlobalState) :
    (updateMagnifiedView env g).st.active = g.st.active := by
  simp only [updateMagnifiedView]
  split <;> (try split) <;> simp [updateCanvasTransformation]

@[simp] lemma updateInitialPosition_config (env : Env) (g : GlobalState) :
    (updateInitialPosition env g).config = g.config := by
  simp only [updateInitialPosition]; split <;> (try split) <;> simp

@[simp] lemma updateInitialPosition_visible (env : Env) (g : GlobalState) :
    (updateInitialPosition env g).visible = g.visible := by
  simp only [updateInitialPosition]; split <;> (try split) <;> simp

@[simp] lemma updateInitialPosition_clones (env : Env) (g : GlobalState) :
    (updateInitialPosition env g).clones = g.clones := by
  simp only [updateInitialPosition]; split <;> (try split) <;> simp

@[simp] lemma updateInitialPosition_persistedX (env : Env) (g : GlobalState) :
    (updateInitialPosition env g).persistedX = g.persistedX := by
  simp only [updateInitialPosition]; split <;> (try split) <;> simp

@[simp] lemma updateInitialPosition_persistedY (env : Env) (g : GlobalState) :
    (updateInitialPosition env g).persistedY = g.persistedY := by
  simp only [updateInitialPosition]; split <;> (try split) <;> simp

@[simp] lemma updateInitialPosition_renderCount (env : Env) (g : GlobalState) :
    (updateInitialPosition env g).renderCount = g.renderCount := by
  simp only [updateInitialPosition]; split <;> (try split) <;> simp

@[simp] lemma updateInitialPosition_active (env : Env) (g : GlobalState) :
    (updateInitialPosition env g).st.active = g.st.active := by
  simp only [updateInitialPosition]; split <;> (try split) <;> simp

@[simp] lemma saveAndUpdate_config (env : Env) (g : GlobalState) :
    (saveAndUpdate env g).config = g.config := by
  simp [saveAndUpdate]

@[simp] lemma saveAndUpdate_visible (env : Env) (g : GlobalState) :
    (saveAndUpdate env g).visible = g.visible := by
  simp [saveAndUpdate]

@[simp] lemma saveAndUpdate_clones (env : Env) (g : GlobalState) :
    (saveAndUpdate env g).clones = g.clones := by
  simp [saveAndUpdate]

@[simp] lemma saveAndUpdate_renderCount (env : Env) (g : GlobalState) :
    (saveAndUpdate env g).renderCount = g.renderCount := by
  simp [saveAndUpdate]

@[simp] lemma saveAndUpdate_persistedX (env : Env) (g : GlobalState) :
    (saveAndUpdate env g).persistedX = some g.config.offsetX := by
  simp [saveAndUpdate]

@[simp] lemma saveAndUpdate_persistedY (env : Env) (g : GlobalState) :
    (saveAndUpdate env g).persistedY = some g.config.offsetY := by
  simp [saveAndUpdate]

@[simp] lemma saveAndUpdate_active (env : Env) (g : GlobalState) :
    (saveAndUpdate env g).st.active = g.st.active := by
  simp [saveAndUpdate]

@[simp] lemma handleKeyDownActivate_config (e : KeyEvent) (env : Env) (g : GlobalState) :
    (handleKeyDownActivate e env g).config = g.config := by
  simp only [handleKeyDownActivate]; split_ifs <;> simp

@[simp] lemma handleKeyDownActivate_clones (e : KeyEvent) (env : Env) (g : GlobalState) :
    (handleKeyDownActivate e env g).clones = g.clones := by
  simp only [handleKeyDownActivate]; split_ifs <;> simp

@[simp] lemma handleKeyDownActivate_persistedX (e : KeyEvent) (env : Env) (g : GlobalState) :
    (handleKeyDownActivate e env g).persistedX = g.persistedX := by
  simp only [handleKeyDownActivate]; split_ifs <;> simp

@[simp] lemma handleKeyDownActivate_persistedY (e : KeyEvent) (env : Env) (g : GlobalState) :
    (handleKeyDownActivate e env g).persistedY = g.persistedY := by
  simp only [handleKeyDownActivate]; split_ifs <;> simp

@[simp] lemma handleKeyDownActivate_renderCount (e : KeyEvent) (env : Env) (g : GlobalState) :
    (handleKeyDownActivate e env g).renderCount = g.renderCount := by
  simp only [handleKeyDownActivate]; split_ifs <;> simp

/-- While already active, the activation half of `handleKeyDown` is the
identity (`if (!state.active)` guard). -/
lemma handleKeyDownActivate_of_active (e : KeyEvent) (env : Env) (g : GlobalState)
    (h : g.st.active = true) :
    handleKeyDownActivate e env g = g := by
  simp only [handleKeyDownActivate, h]
  split_ifs <;> simp_all

@[simp] lemma handleKeyDownAdjust_visible (e : KeyEvent) (env : Env) (g : GlobalState) :
    (handleKeyDownAdjust e env g).visible = g.visible := by
  simp only [handleKeyDownAdjust]; split_ifs <;> simp

@[simp] lemma handleKeyDownAdjust_active (e : KeyEvent) (env : Env) (g : GlobalState) :
    (handleKeyDownAdjust e env g).st.active = g.st.active := by
  simp only [handleKeyDownAdjust]; split_ifs <;> simp

@[simp] lemma handleKeyDownAdjust_clones (e : KeyEvent) (env : Env) (g : GlobalState) :
    (handleKeyDownAdjust e env g).clones = g.clones := by
  simp only [handleKeyDownAdjust]; split_ifs <;> simp

@[simp] lemma handleKeyDownAdjust_renderCount (e : KeyEvent) (env : Env) (g : GlobalState) :
    (handleKeyDownAdjust e env g).renderCount = g.renderCount := by
  simp only [handleKeyDownAdjust]; split_ifs <;> simp

@[simp] lemma handleKeyDown_renderCount (e : KeyEvent) (env : Env) (g : GlobalState) :
    (handleKeyDown e env g).renderCount = g.renderCount := by
  simp [handleKeyDown]

@[simp] lemma handleKeyUp_renderCount (e : KeyEvent) (g : GlobalState) :
    (handleKeyUp e g).renderCount = g.renderCount := by
  simp only [handleKeyUp]; split_ifs <;> rfl

@[simp] lemma handleMouseMove_renderCount (cx cy : ℚ) (env : Env) (g : GlobalState) :
    (handleMouseMove cx cy env g).renderCount = g.renderCount := by
  simp only [handleMouseMove]; split_ifs <;> simp

lemma frameTick_renderCount (env : Env) (g : GlobalState) :
    (frameTick env g).renderCount ≤ g.renderCount + 1 := by
  simp only [frameTick]; split_ifs <;> simp

@[simp] lemma frameTick_sched (env : Env) (g : GlobalState) :
    (frameTick env g).st.isRenderScheduled = false := by
  unfold frameTick
  by_cases h1 : g.st.isRenderScheduled = true
  · rw [if_pos h1]
    by_cases h2 : (g.st.active && g.hasRenderer && g.hasCanvas) = true
    · rw [if_pos h2]
    · rw [if_neg h2]
  · rw [if_neg h1]
    simp only [Bool.not_eq_true] at h1
    exact h1

/-- Non-frame events never invoke `renderer.render`. -/
lemma applyEvent_renderCount_of_not_frame (ev : Event) (g : GlobalState)
    (h : ev.isFrame = false) :
    (applyEvent ev g).renderCount = g.renderCount := by
  cases ev <;> simp_all [applyEvent, Event.isFrame]

lemma applyEvents_renderCount (evs : List Event) (g : GlobalState)
    (h : ∀ ev ∈ evs, ev.isFrame = false) :
    (applyEvents evs g).renderCount = g.renderCount := by
  induction evs generalizing g with
  | nil => rfl
  | cons ev evs ih =>
    have h1 : ev.isFrame = false := h ev (List.mem_cons_self ev evs)
    have h2 : ∀ e ∈ evs, e.isFrame = false := fun e he => h e (List.mem_cons_of_mem ev he)
    calc (applyEvents (ev :: evs) g).renderCount
        = (applyEvents evs (applyEvent ev g)).renderCount := rfl
      _ = (applyEvent ev g).renderCount := ih (applyEvent ev g) h2
      _ = g.renderCount := applyEvent_renderCount_of_not_frame ev g h1

/-- C6: render scheduling is single-flight.  For any starting state and any
sequence of non-frame events (e.g. pointer moves) before the next frame
callback, `renderer.render` runs at most once at that frame tick; a render
request issued while the pending flag is set leaves the flag set and draws
nothing (coalesced no-op); and after the frame tick the pending flag is
clear. -/
theorem render_single_flight (g : GlobalState) (evs : List Event) (env : Env)
    (hevs : ∀ ev ∈ evs, ev.isFrame = false) :
    (applyEvents evs g).renderCount = g.renderCount
    ∧ (applyEvent (.frame env) (applyEvents evs g)).renderCount ≤ g.renderCount + 1
    ∧ (g.st.isRenderScheduled = true →
        (updateMagnifiedView env g).st.isRenderScheduled = true
        ∧ (updateMagnifiedView env g).renderCount = g.renderCount)
    ∧ (frameTick env g).st.isRenderScheduled = false := by
  have ha := applyEvents_renderCount evs g hevs
  refine ⟨ha, ?_, ?_, ?_⟩
  · calc (applyEvent (.frame env) (applyEvents evs g)).renderCount
        ≤ (applyEvents evs g).renderCount + 1 := frameTick_renderCount env _
      _ = g.renderCount + 1 := by rw [ha]
  · intro hsched
    refine ⟨?_, updateMagnifiedView_renderCount env g⟩
    simp only [updateMagnifiedView]
    split <;> (try split) <;> simp_all
  · exact frameTick_sched env g

/-- A state with a render already pending, used to witness C6. -/
def pendingState : GlobalState :=
  { config := defaultConfig
    st := { scenarioState with isRenderScheduled := true }
    visible := true, clones := [], persistedX := none, persistedY := none,
    lastMouseX := 0, lastMouseY := 0, renderCount := 0,
    hasRenderer := true, hasCanvas := true }

/-- A concrete host environment for witnesses. -/
def exEnv : Env :=
  { rectLeft := 0, rectTop := 0, rectWidth := 800, rectHeight := 600,
    canvasPixelWidth := 800, canvasPixelHeight := 600,
    dsScale := 1, dsOffsetX := 0, dsOffsetY := 0,
    hasGraph := true, widgets := [] }

/-- Two pointer-move events before the frame callback (Scenario 5). -/
def twoMoves : List Event :=
  [.mouseMove 10 10 exEnv, .mouseMove 20 20 exEnv]

/-- Witness for C6: two pointer moves on `pendingState` cause no render;
the following frame tick renders at most once; the pending request is
coalesced; the flag is clear after the tick. -/
theorem render_single_flight_witness :
    (∀ ev ∈ twoMoves, ev.isFrame = false)
    ∧ ((applyEvents twoMoves pendingState).renderCount = pendingState.renderCount
      ∧ (applyEvent (.frame exEnv) (applyEvents twoMoves pendingState)).renderCount
          ≤ pendingState.renderCount + 1
      ∧ ((updateMagnifiedView exEnv pendingState).st.isRenderScheduled = true
        ∧ (updateMagnifiedView exEnv pendingState).renderCount = pendingState.renderCount)
      ∧ (frameTick exEnv pendingState).st.isRenderScheduled = false) := by
  have hno : ∀ ev ∈ twoMoves, ev.isFrame = false := by
    intro ev hev
    simp only [twoMoves, List.mem_cons, List.not_mem_nil, or_false] at hev
    rcases hev with h | h <;> subst h <;> rfl
  obtain ⟨h1, h2, h3, h4⟩ := render_single_flight pendingState twoMoves exEnv hno
  exact ⟨hno, h1, h2, h3 rfl, h4⟩

/-! ### The overlay/clone invariant (C8) -/

/-- The state-machine invariant: the overlay container is visible iff the
magnifier is active, and the compositor clone list is empty while
inactive. -/
def MagInv (g : GlobalState) : Prop :=
  g.visible = g.st.active ∧ (g.st.active = false → g.clones = [])

lemma magInv_activate (e : KeyEvent) (env : Env) (g : GlobalState) (h : MagInv g) :
    MagInv (handleKeyDownActivate e env g) := by
  obtain ⟨h1, h2⟩ := h
  simp only [handleKeyDownActivate, MagInv]
  split_ifs <;> constructor <;> simp_all

lemma magInv_adjust (e : KeyEvent) (env : Env) (g : GlobalState) (h : MagInv g) :
    MagInv (handleKeyDownAdjust e env g) := by
  obtain ⟨h1, h2⟩ := h
  refine ⟨by simp [h1], fun ha => ?_⟩
  rw [handleKeyDownAdjust_clones]
  exact h2 (by simpa using ha)

lemma magInv_keyDown (e : KeyEvent) (env : Env) (g : GlobalState) (h : MagInv g) :
    MagInv (handleKeyDown e env g) :=
  magInv_adjust e env _ (magInv_activate e env g h)

lemma magInv_keyUp (e : KeyEvent) (g : GlobalState) (h : MagInv g) :
    MagInv (handleKeyUp e g) := by
  obtain ⟨h1, h2⟩ := h
  simp only [handleKeyUp, MagInv]
  split_ifs <;> constructor <;> simp_all

lemma magInv_mouseMove (cx cy : ℚ) (env : Env) (g : GlobalState) (h : MagInv g) :
    MagInv (handleMouseMove cx cy env g) := by
  obtain ⟨h1, h2⟩ := h
  simp only [handleMouseMove, MagInv]
  split_ifs <;> constructor <;> simp_all

lemma magInv_frame (env : Env) (g : GlobalState) (h : MagInv g) :
    MagInv (frameTick env g) := by
  obtain ⟨h1, h2⟩ := h
  simp only [frameTick, MagInv]
  split_ifs with ha hb <;> constructor <;> simp_all

/-- C8: in every state reachable by the event-handling step relation, the
overlay container is visible iff the controller is active, and the
compositor clone list is empty whenever it is inactive. -/
theorem overlay_invariant (config : MagConfig) (px py : Option ℚ) (g : GlobalState)
    (h : Reachable config px py g) :
    g.visible = g.st.active ∧ (g.st.active = false → g.clones = []) := by
  induction h with
  | init => exact ⟨rfl, fun _ => rfl⟩
  | step _ ev ih =>
    cases ev with
    | keyDown e env => exact magInv_keyDown e env _ ih
    | keyUp e => exact magInv_keyUp e _ ih
    | mouseMove cx cy env => exact magInv_mouseMove cx cy env _ ih
    | frame env => exact magInv_frame env _ ih

/-- Witness for C8 at the initial state. -/
theorem overlay_invariant_witness :
    (initialState defaultConfig none none).visible
        = (initialState defaultConfig none none).st.active
    ∧ (initialState defaultConfig none none).clones = [] :=
  ⟨(overlay_invariant defaultConfig none none _ Reachable.init).1,
    (overlay_invariant defaultConfig none none _ Reachable.init).2 rfl⟩

/-! ### Reset idempotence (C7) -/

/-- On the reset key (with its modifier satisfied, not an arrow key), the
adjustment half of `handleKeyDown` zeroes the offsets, saves them and
requests a render. -/
lemma handleKeyDownAdjust_reset (e : KeyEvent) (env : Env) (g : GlobalState)
    (hactive : g.st.active = true)
    (hup : e.key ≠ "ArrowUp") (hdown : e.key ≠ "ArrowDown")
    (hleft : e.key ≠ "ArrowLeft") (hright : e.key ≠ "ArrowRight")
    (hkey : jsToLower e.key = jsToLower g.config.resetKey)
    (hmod : g.config.resetAltRequired = false ∨ e.altKey = true) :
    handleKeyDownAdjust e env g
      = saveAndUpdate env { g with config := { g.config with offsetX := 0, offsetY := 0 } } := by
  have hcond : (jsToLower e.key == jsToLower g.config.resetKey
      && (!g.config.resetAltRequired || e.altKey)) = true := by
    simp only [Bool.and_eq_true, Bool.or_eq_true, Bool.not_eq_true', beq_iff_eq]
    exact ⟨hkey, hmod⟩
  simp only [handleKeyDownAdjust, hactive, if_true]
  rw [if_neg (by simp [hup]), if_neg (by simp [hdown]), if_neg (by simp [hleft]),
    if_neg (by simp [hright]), if_pos hcond]

/-- Outcome of a reset key press while active: offsets zeroed, `(0,0)`
persisted, still active, reset bindings untouched. -/
lemma handleKeyDown_reset_outcome (e : KeyEvent) (env : Env) (g : GlobalState)
    (hactive : g.st.active = true)
    (hup : e.key ≠ "ArrowUp") (hdown : e.key ≠ "ArrowDown")
    (hleft : e.key ≠ "ArrowLeft") (hright : e.key ≠ "ArrowRight")
    (hkey : jsToLower e.key = jsToLower g.config.resetKey)
    (hmod : g.config.resetAltRequired = false ∨ e.altKey = true) :
    (handleKeyDown e env g).config.offsetX = 0
    ∧ (handleKeyDown e env g).config.offsetY = 0
    ∧ (handleKeyDown e env g).persistedX = some 0
    ∧ (handleKeyDown e env g).persistedY = some 0
    ∧ (handleKeyDown e env g).st.active = true
    ∧ (handleKeyDown e env g).config.resetKey = g.config.resetKey
    ∧ (handleKeyDown e env g).config.resetAltRequired = g.config.resetAltRequired := by
  have hkd : handleKeyDown e env g
      = saveAndUpdate env { g with config := { g.config with offsetX := 0, offsetY := 0 } } := by
    rw [handleKeyDown, handleKeyDownActivate_of_active e env g hactive]
    exact handleKeyDownAdjust_reset e env g hactive hup hdown hleft hright hkey hmod
  rw [hkd]
  refine ⟨by simp, by simp, by simp, by simp, by simp [hactive], by simp, by simp⟩

/-- Function `resetOffsets` zeroes the offsets and persists `(0,0)`, from any
state. -/
lemma resetOffsets_outcome (env : Env) (g : GlobalState) :
    (resetOffsets env g).config.offsetX = 0
    ∧ (resetOffsets env g).config.offsetY = 0
    ∧ (resetOffsets env g).persistedX = some 0
    ∧ (resetOffsets env g).persistedY = some 0 := by
  simp only [resetOffsets]
  split_ifs <;> simp

/-- C7: the reset transition — the reset key with its modifier while
active, or `resetOffsets` — zeroes both manual offsets and persists
`(0,0)`; repeating it immediately yields offsets `(0,0)` after each
invocation and persists `(0,0)` both times. -/
theorem reset_idempotent (e : KeyEvent) (env : Env) (g : GlobalState)
    (hactive : g.st.active = true)
    (hup : e.key ≠ "ArrowUp") (hdown : e.key ≠ "ArrowDown")
    (hleft : e.key ≠ "ArrowLeft") (hright : e.key ≠ "ArrowRight")
    (hkey : jsToLower e.key = jsToLower g.config.resetKey)
    (hmod : g.config.resetAltRequired = false ∨ e.altKey = true) :
    ((resetOffsets env g).config.offsetX = 0
      ∧ (resetOffsets env g).config.offsetY = 0
      ∧ (resetOffsets env g).persistedX = some 0
      ∧ (resetOffsets env g).persistedY = some 0)
    ∧ ((resetOffsets env (resetOffsets env g)).config.offsetX = 0
      ∧ (resetOffsets env (resetOffsets env g)).config.offsetY = 0
      ∧ (resetOffsets env (resetOffsets env g)).persistedX = some 0
      ∧ (resetOffsets env (resetOffsets env g)).persistedY = some 0)
    ∧ ((handleKeyDown e env g).config.offsetX = 0
      ∧ (handleKeyDown e env g).config.offsetY = 0
      ∧ (handleKeyDown e env g).persistedX = some 0
      ∧ (handleKeyDown e env g).persistedY = some 0)
    ∧ ((handleKeyDown e env (handleKeyDown e env g)).config.offsetX = 0
      ∧ (handleKeyDown e env (handleKeyDown e env g)).config.offsetY = 0
      ∧ (handleKeyDown e env (handleKeyDown e env g)).persistedX = some 0
      ∧ (handleKeyDown e env (handleKeyDown e env g)).persistedY = some 0) := by
  obtain ⟨a1, a2, a3, a4, a5, a6, a7⟩ :=
    handleKeyDown_reset_outcome e env g hactive hup hdown hleft hright hkey hmod
  obtain ⟨b1, b2, b3, b4, b5, b6, b7⟩ :=
    handleKeyDown_reset_outcome e env (handleKeyDown e env g) a5 hup hdown hleft hright
      (by rw [a6]; exact hkey) (by rw [a7]; exact hmod)
  obtain ⟨c1, c2, c3, c4⟩ := resetOffsets_outcome env g
  obtain ⟨d1, d2, d3, d4⟩ := resetOffsets_outcome env (resetOffsets env g)
  exact ⟨⟨c1, c2, c3, c4⟩, ⟨d1, d2, d3, d4⟩, ⟨a1, a2, a3, a4⟩, ⟨b1, b2, b3, b4⟩⟩

/-- The reset key event `Alt+R`. -/
def resetEvent : KeyEvent := { key := "r", altKey := true, shiftKey := false }

/-- Witness for C7 at a concrete active state (`pendingState`, which uses
the default `r`/Alt reset binding). -/
theorem reset_idempotent_witness :
    ((resetOffsets exEnv pendingState).config.offsetX = 0
      ∧ (resetOffsets exEnv pendingState).config.offsetY = 0
      ∧ (resetOffsets exEnv pendingState).persistedX = some 0
      ∧ (resetOffsets exEnv pendingState).persistedY = some 0)
    ∧ ((resetOffsets exEnv (resetOffsets exEnv pendingState)).config.offsetX = 0
      ∧ (resetOffsets exEnv (resetOffsets exEnv pendingState)).config.offsetY = 0
      ∧ (resetOffsets exEnv (resetOffsets exEnv pendingState)).persistedX = some 0
      ∧ (resetOffsets exEnv (resetOffsets exEnv pendingState)).persistedY = some 0)
    ∧ ((handleKeyDown resetEvent exEnv pendingState).config.offsetX = 0
      ∧ (handleKeyDown resetEvent exEnv pendingState).config.offsetY = 0
      ∧ (handleKeyDown resetEvent exEnv pendingState).persistedX = some 0
      ∧ (handleKeyDown resetEvent exEnv pendingState).persistedY = some 0)
    ∧ ((handleKeyDown resetEvent exEnv
          (handleKeyDown resetEvent exEnv pendingState)).config.offsetX = 0
      ∧ (handleKeyDown resetEvent exEnv
          (handleKeyDown resetEvent exEnv pendingState)).config.offsetY = 0
      ∧ (handleKeyDown resetEvent exEnv
          (handleKeyDown resetEvent exEnv pendingState)).persistedX = some 0
      ∧ (handleKeyDown resetEvent exEnv
          (handleKeyDown resetEvent exEnv pendingState)).persistedY = some 0) :=
  reset_idempotent resetEvent exEnv pendingState rfl (by decide) (by decide) (by decide)
    (by decide) rfl (Or.inr rfl)

/-! ### Arrow-key offset adjustment (C9) -/

/-- C9 (amended): while active, ArrowUp with `offsetStep = 5` decreases
`offsetY` by 5 (by 25 with shift) and leaves `offsetX` unchanged; while
inactive, a key press changes nothing — offsets included — provided the
pressed key (lowercased) does not match the configured activation key with
its modifier requirement satisfied. -/
theorem handleKeyDown_arrow_spec (e : KeyEvent) (env : Env) (g : GlobalState) :
    (g.st.active = true → e.key = "ArrowUp" → g.config.offsetStep = 5 →
      e.shiftKey = false →
        (handleKeyDown e env g).config.offsetY = g.config.offsetY - 5
        ∧ (handleKeyDown e env g).config.offsetX = g.config.offsetX)
    ∧ (g.st.active = true → e.key = "ArrowUp" → g.config.offsetStep = 5 →
      e.shiftKey = true →
        (handleKeyDown e env g).config.offsetY = g.config.offsetY - 25
        ∧ (handleKeyDown e env g).config.offsetX = g.config.offsetX)
    ∧ (g.st.active = false →
      ¬(jsToLower e.key = g.config.activationKey
          ∧ (g.config.altRequired = false ∨ e.altKey = true)) →
        handleKeyDown e env g = g) := by
  refine ⟨?_, ?_, ?_⟩
  · intro hact hkeyU hstep hshift
    rw [handleKeyDown, handleKeyDownActivate_of_active e env g hact]
    simp only [handleKeyDownAdjust, hact, if_true]
    rw [if_pos (by simp [hkeyU])]
    constructor
    · rw [saveAndUpdate_config]
      simp [hshift, hstep]
    · rw [saveAndUpdate_config]
  · intro hact hkeyU hstep hshift
    rw [handleKeyDown, handleKeyDownActivate_of_active e env g hact]
    simp only [handleKeyDownAdjust, hact, if_true]
    rw [if_pos (by simp [hkeyU])]
    constructor
    · rw [saveAndUpdate_config]
      simp only [hshift, if_true, hstep]
      norm_num
    · rw [saveAndUpdate_config]
  · intro hina hcond
    have hb : ¬((jsToLower e.key == g.config.activationKey
        && (!g.config.altRequired || e.altKey)) = true) := by
      simp only [Bool.and_eq_true, Bool.or_eq_true, Bool.not_eq_true', beq_iff_eq]
      exact hcond
    rw [handleKeyDown, handleKeyDownActivate, if_neg hb, handleKeyDownAdjust,
      if_neg (by simp [hina])]

/-- ArrowUp without modifiers. -/
def upNoShift : KeyEvent := { key := "ArrowUp", altKey := false, shiftKey := false }

/-- ArrowUp with shift held. -/
def upShift : KeyEvent := { key := "ArrowUp", altKey := false, shiftKey := true }

/-- The initial state under the default configuration. -/
def defaultStart : GlobalState := initialState defaultConfig none none

/-- Witness for the amended C9 at concrete inputs: ArrowUp on the active
`pendingState` (step 5, without and with shift), and ArrowUp on the
inactive default start state. -/
theorem handleKeyDown_arrow_spec_witness :
    ((handleKeyDown upNoShift exEnv pendingState).config.offsetY
        = pendingState.config.offsetY - 5
      ∧ (handleKeyDown upNoShift exEnv pendingState).config.offsetX
        = pendingState.config.offsetX)
    ∧ ((handleKeyDown upShift exEnv pendingState).config.offsetY
        = pendingState.config.offsetY - 25
      ∧ (handleKeyDown upShift exEnv pendingState).config.offsetX
        = pendingState.config.offsetX)
    ∧ handleKeyDown upNoShift exEnv defaultStart = defaultStart :=
  ⟨(handleKeyDown_arrow_spec upNoShift exEnv pendingState).1 rfl rfl rfl rfl,
    (handleKeyDown_arrow_spec upShift exEnv pendingState).2.1 rfl rfl rfl rfl,
    (handleKeyDown_arrow_spec upNoShift exEnv defaultStart).2.2 rfl (by decide)⟩

/-- A configuration that binds activation to the ArrowUp key itself with no
modifier — legal, since the key bindings are free-form settings. -/
def arrowConfig : MagConfig :=
  { defaultConfig with activationKey := "arrowup", altRequired := false }

/-- A host environment whose canvas client rect starts at x = 1 and whose
pan/zoom scale is 0. -/
def outEnv : Env := { exEnv with rectLeft := 1, dsScale := 0 }

/-- The initial (inactive) state under `arrowConfig`. -/
def inactiveArrowState : GlobalState := initialState arrowConfig none none

/-- Counterexample to C9 as stated: with the activation key configured as
`arrowup` (no modifier), pressing ArrowUp while Inactive activates the
magnifier and then adjusts `offsetY` — so an arrow key press in the
Inactive state does change an offset. -/
theorem handleKeyDown_inactive_arrow_cex :
    inactiveArrowState.st.active = false
    ∧ (handleKeyDown upNoShift outEnv inactiveArrowState).config.offsetY
        ≠ inactiveArrowState.config.offsetY := by
  refine ⟨rfl, ?_⟩
  have hact : handleKeyDownActivate upNoShift outEnv inactiveArrowState
      = updateInitialPosition outEnv
          { inactiveArrowState with
            st := { inactiveArrowState.st with active := true }, visible := true } := by
    rw [handleKeyDownActivate, if_pos (by decide), if_pos (by decide)]
  have hupd : updateInitialPosition outEnv
      { inactiveArrowState with
        st := { inactiveArrowState.st with active := true }, visible := true }
      = { inactiveArrowState with
          st := { inactiveArrowState.st with active := true }, visible := true } := by
    simp only [updateInitialPosition]
    split_ifs with h1 h2 <;>
      first
        | rfl
        | exact absurd h2.1 (by decide)
  rw [handleKeyDown, hact, hupd]
  simp only [handleKeyDownAdjust]
  rw [if_pos (by decide), if_pos (by decide), saveAndUpdate_config]
  norm_num [inactiveArrowState, initialState, arrowConfig, defaultConfig, upNoShift]

/-! ### Pointer move outside the canvas (C10) -/

/-- C10: a pointer move whose position falls outside the canvas client
bounds, while active, updates only the last known mouse position — the
cursor state, sample rectangle and scheduling flag (all inside `.st`) and
the render count are untouched, and the state is otherwise unchanged. -/
theorem handleMouseMove_outside (cx cy : ℚ) (env : Env) (g : GlobalState)
    (_hactive : g.st.active = true)
    (houtside : ¬(0 ≤ cx - env.rectLeft ∧ cx - env.rectLeft ≤ env.rectWidth
        ∧ 0 ≤ cy - env.rectTop ∧ cy - env.rectTop ≤ env.rectHeight)) :
    (handleMouseMove cx cy env g).lastMouseX = cx
    ∧ (handleMouseMove cx cy env g).lastMouseY = cy
    ∧ (handleMouseMove cx cy env g).st = g.st
    ∧ (handleMouseMove cx cy env g).renderCount = g.renderCount
    ∧ handleMouseMove cx cy env g = { g with lastMouseX := cx, lastMouseY := cy } := by
  have heq : handleMouseMove cx cy env g = { g with lastMouseX := cx, lastMouseY := cy } := by
    simp only [handleMouseMove]
    split_ifs <;> rfl
  rw [heq]
  exact ⟨rfl, rfl, rfl, rfl, rfl⟩

/-- Witness for C10: a pointer move to `(-5, 10)`, left of the canvas rect
of `exEnv`, on the active `pendingState`. -/
theorem handleMouseMove_outside_witness :
    (handleMouseMove (-5) 10 exEnv pendingState).lastMouseX = -5
    ∧ (handleMouseMove (-5) 10 exEnv pendingState).lastMouseY = 10
    ∧ (handleMouseMove (-5) 10 exEnv pendingState).st = pendingState.st
    ∧ (handleMouseMove (-5) 10 exEnv pendingState).renderCount = pendingState.renderCount
    ∧ handleMouseMove (-5) 10 exEnv pendingState
        = { pendingState with lastMouseX := -5, lastMouseY := 10 } :=
  handleMouseMove_outside (-5) 10 exEnv pendingState rfl
    (fun hc => absurd hc.1 (by norm_num [exEnv]))

end Magnify
